import Mathlib

/-!
Verification of the instruction-metadata registry (`InstEntry.hpp`) of the
WdRiscv instruction-set simulator core: the `InstEntry` descriptor and the
`InstTable` registry, embedded shallowly in Lean.

The header defines the enums, the `InstEntry` accessors and predicates
inline; the bodies of the `InstEntry` constructor, `InstTable::InstTable`,
`InstTable::getEntry`, `InstTable::hasInfo` and `InstTable::setupInstVec`
are declared in the header but implemented elsewhere in the repository, so
those are modelled from the specification (each such definition carries a
doc comment saying so).
-/

namespace WdRiscv

/-- `enum class OperandType { IntReg, FpReg, CsReg, VecReg, Imm, None }`. -/
inductive OperandType where
  | IntReg
  | FpReg
  | CsReg
  | VecReg
  | Imm
  | None
deriving DecidableEq, Repr

/-- `enum class OperandMode { Read, Write, ReadWrite, None }`. -/
inductive OperandMode where
  | Read
  | Write
  | ReadWrite
  | None
deriving DecidableEq, Repr

/-- `enum class InstType { Load, Store, Multiply, Divide, Branch, Int, Fp,
Csr, Atomic, Vector, Zba, Zbb, Zbc, Zbe, Zbf, Zbm, Zbp, Zbr, Zbs, Zbt }`. -/
inductive InstType where
  | Load
  | Store
  | Multiply
  | Divide
  | Branch
  | Int
  | Fp
  | Csr
  | Atomic
  | Vector
  | Zba
  | Zbb
  | Zbc
  | Zbe
  | Zbf
  | Zbm
  | Zbp
  | Zbr
  | Zbs
  | Zbt
deriving DecidableEq, Repr

/-- Modelled from the spec: `InstId.hpp` is not under src/.  Per the spec an
identifier is "an integer between 0 and n where n is the number of defined
instructions", so identifiers are embedded as natural numbers. -/
abbrev InstId : Type := Nat

/-- Modelled from the spec: the illegal-instruction sentinel "occupies a
fixed, well-known identifier" and "must be registered first", and entries are
appended in identifier order, so the illegal identifier is position 0. -/
def InstId.illegal : InstId := (0 : Nat)

/-- The fields of class `InstEntry` (`InstEntry.hpp`, private section).
Machine integers (`uint32_t` masks and codes, `unsigned` counts and sizes)
are embedded as `Nat`; all catalog values fit in 32 bits. -/
structure InstEntry where
  name_ : String
  id_ : InstId
  code_ : Nat
  codeMask_ : Nat
  type_ : InstType
  op0Mask_ : Nat
  op1Mask_ : Nat
  op2Mask_ : Nat
  op3Mask_ : Nat
  op0Type_ : OperandType
  op1Type_ : OperandType
  op2Type_ : OperandType
  op3Type_ : OperandType
  op0Mode_ : OperandMode
  op1Mode_ : OperandMode
  op2Mode_ : OperandMode
  op3Mode_ : OperandMode
  opCount_ : Nat
  ldSize_ : Nat
  stSize_ : Nat
  isUns_ : Bool
  isCond_ : Bool
  isRegBranch_ : Bool
  isBitManip_ : Bool
deriving DecidableEq, Repr

namespace InstEntry

/-- `const std::string& name() const { return name_; }` -/
def name (e : InstEntry) : String := e.name_

/-- `InstId instId() const { return id_; }` -/
def instId (e : InstEntry) : InstId := e.id_

/-- `uint32_t code() const { return code_; }` -/
def code (e : InstEntry) : Nat := e.code_

/-- `uint32_t codeMask() const { return codeMask_; }` -/
def codeMask (e : InstEntry) : Nat := e.codeMask_

/-- `unsigned operandCount() const { return opCount_; }` -/
def operandCount (e : InstEntry) : Nat := e.opCount_

/-- `OperandType ithOperandType(unsigned i) const`: the if-chain over
`i == 0 .. 3`, falling through to `OperandType::None`. -/
def ithOperandType (e : InstEntry) (i : Nat) : OperandType :=
  if i = 0 then e.op0Type_
  else if i = 1 then e.op1Type_
  else if i = 2 then e.op2Type_
  else if i = 3 then e.op3Type_
  else OperandType.None

/-- `OperandMode ithOperandMode(unsigned i) const`: the if-chain over
`i == 0 .. 3`, falling through to `OperandMode::None`. -/
def ithOperandMode (e : InstEntry) (i : Nat) : OperandMode :=
  if i = 0 then e.op0Mode_
  else if i = 1 then e.op1Mode_
  else if i = 2 then e.op2Mode_
  else if i = 3 then e.op3Mode_
  else OperandMode.None

/-- `bool isIthOperandWrite(unsigned i) const`:
`mode == Write or mode == ReadWrite`. -/
def isIthOperandWrite (e : InstEntry) (i : Nat) : Bool :=
  let mode := e.ithOperandMode i
  mode = OperandMode.Write ∨ mode = OperandMode.ReadWrite

/-- `bool isIthOperandRead(unsigned i) const`:
`mode == Read or mode == ReadWrite`. -/
def isIthOperandRead (e : InstEntry) (i : Nat) : Bool :=
  let mode := e.ithOperandMode i
  mode = OperandMode.Read ∨ mode = OperandMode.ReadWrite

/-- `uint32_t ithOperandMask(unsigned i) const`: the if-chain over
`i == 0 .. 3`, falling through to `0`. -/
def ithOperandMask (e : InstEntry) (i : Nat) : Nat :=
  if i = 0 then e.op0Mask_
  else if i = 1 then e.op1Mask_
  else if i = 2 then e.op2Mask_
  else if i = 3 then e.op3Mask_
  else 0

/-- `bool isIthOperandIntRegSource(unsigned i) const`: false unless the type
is `IntReg`, then `mode == Read`. -/
def isIthOperandIntRegSource (e : InstEntry) (i : Nat) : Bool :=
  if e.ithOperandType i ≠ OperandType.IntReg then false
  else e.ithOperandMode i = OperandMode.Read

/-- `bool isIthOperandFpRegSource(unsigned i) const`: false unless the type
is `FpReg`, then `mode == Read`. -/
def isIthOperandFpRegSource (e : InstEntry) (i : Nat) : Bool :=
  if e.ithOperandType i ≠ OperandType.FpReg then false
  else e.ithOperandMode i = OperandMode.Read

/-- `InstType type() const { return type_; }` -/
def type (e : InstEntry) : InstType := e.type_

/-- `bool isLoad() const { return type_ == InstType::Load; }` -/
def isLoad (e : InstEntry) : Bool := e.type_ = InstType.Load

/-- `bool isStore() const { return type_ == InstType::Store; }` -/
def isStore (e : InstEntry) : Bool := e.type_ = InstType.Store

/-- `bool isBranch() const { return type_ == InstType::Branch; }` -/
def isBranch (e : InstEntry) : Bool := e.type_ = InstType.Branch

/-- `bool isMultiply() const { return type_ == InstType::Multiply; }` -/
def isMultiply (e : InstEntry) : Bool := e.type_ = InstType.Multiply

/-- `bool isDivide() const { return type_ == InstType::Divide; }` -/
def isDivide (e : InstEntry) : Bool := e.type_ = InstType.Divide

/-- `bool isCsr() const { return type_ == InstType::Csr; }` -/
def isCsr (e : InstEntry) : Bool := e.type_ = InstType.Csr

/-- `bool isAtomic() const { return type_ == InstType::Atomic; }` -/
def isAtomic (e : InstEntry) : Bool := e.type_ = InstType.Atomic

/-- `bool isVector() const { return type_ == InstType::Vector; }` -/
def isVector (e : InstEntry) : Bool := e.type_ = InstType.Vector

/-- `unsigned loadSize() const { return ldSize_; }` -/
def loadSize (e : InstEntry) : Nat := e.ldSize_

/-- `unsigned storeSize() const { return stSize_; }` -/
def storeSize (e : InstEntry) : Nat := e.stSize_

/-- `void setIsUnsigned(bool flag) { isUns_ = flag; }` -/
def setIsUnsigned (e : InstEntry) (flag : Bool) : InstEntry := { e with isUns_ := flag }

/-- `void setLoadSize(unsigned size) { ldSize_ = size; }` -/
def setLoadSize (e : InstEntry) (size : Nat) : InstEntry := { e with ldSize_ := size }

/-- `void setStoreSize(unsigned size) { stSize_ = size; }` -/
def setStoreSize (e : InstEntry) (size : Nat) : InstEntry := { e with stSize_ := size }

/-- `void setConditionalBranch(bool flag) { isCond_ = flag; }` -/
def setConditionalBranch (e : InstEntry) (flag : Bool) : InstEntry := { e with isCond_ := flag }

/-- `void setBranchToRegister(bool flag) { isRegBranch_ = flag; }` -/
def setBranchToRegister (e : InstEntry) (flag : Bool) : InstEntry := { e with isRegBranch_ := flag }

end InstEntry

/-- The number of operand slots whose type is not `None`, out of the four
positional slots. -/
def countNonNoneTypes (t0 t1 t2 t3 : OperandType) : Nat :=
  (if t0 = OperandType.None then 0 else 1) +
  (if t1 = OperandType.None then 0 else 1) +
  (if t2 = OperandType.None then 0 else 1) +
  (if t3 = OperandType.None then 0 else 1)

/-- The `InstEntry` constructor (declared at `InstEntry.hpp:75`; its body is
not under src/).  Modelled from the spec: each stored field comes from the
corresponding parameter, the derived sizes and flags start at their in-class
initializers (`ldSize_ = 0`, `stSize_ = 0`, flags `false`), and `opCount_` is
the number of slots with non-`None` type ("`operandCount` equals the count of
slots with `type != None`", spec §3). -/
def InstEntry.make (name : String) (id : InstId) (code mask : Nat)
    (type : InstType)
    (op0Type : OperandType) (op0Mode : OperandMode) (op0Mask : Nat)
    (op1Type : OperandType) (op1Mode : OperandMode) (op1Mask : Nat)
    (op2Type : OperandType) (op2Mode : OperandMode) (op2Mask : Nat)
    (op3Type : OperandType) (op3Mode : OperandMode) (op3Mask : Nat) :
    InstEntry where
  name_ := name
  id_ := id
  code_ := code
  codeMask_ := mask
  type_ := type
  op0Mask_ := op0Mask
  op1Mask_ := op1Mask
  op2Mask_ := op2Mask
  op3Mask_ := op3Mask
  op0Type_ := op0Type
  op1Type_ := op1Type
  op2Type_ := op2Type
  op3Type_ := op3Type
  op0Mode_ := op0Mode
  op1Mode_ := op1Mode
  op2Mode_ := op2Mode
  op3Mode_ := op3Mode
  opCount_ := countNonNoneTypes op0Type op1Type op2Type op3Type
  ldSize_ := 0
  stSize_ := 0
  isUns_ := false
  isCond_ := false
  isRegBranch_ := false
  isBitManip_ := false

/-- The entry produced by the defaulted constructor arguments of the
declaration at `InstEntry.hpp:75`: name `""`, id `illegal`, code `0`,
mask `~0` (`0xFFFFFFFF` as a 32-bit value), type `Int`, and no operands.
This is the illegal-instruction sentinel descriptor. -/
def illegalEntry : InstEntry :=
  InstEntry.make "" InstId.illegal 0 0xFFFFFFFF InstType.Int
    OperandType.None OperandMode.None 0
    OperandType.None OperandMode.None 0
    OperandType.None OperandMode.None 0
    OperandType.None OperandMode.None 0

/-- The fields of class `InstTable` (`InstEntry.hpp:329`): a dense vector of
entries indexed by identifier and a name-to-identifier map (the
`unordered_map` is embedded as an association list; lookups take the first
binding, matching `unordered_map::insert` which keeps the first insertion
for a duplicate key). -/
structure InstTable where
  instVec_ : List InstEntry
  instMap_ : List (String × InstId)
deriving DecidableEq, Repr

namespace InstTable

/-- Modelled from the spec: the illegal-instruction sentinel is the entry at
the fixed illegal identifier, "registered first / always present"; when even
that is absent the default-constructed descriptor stands in. -/
def sentinel (t : InstTable) : InstEntry :=
  (t.instVec_[(InstId.illegal : Nat)]?).getD illegalEntry

/-- `InstTable::getEntry(InstId)` (declared at `InstEntry.hpp:310`; body not
under src/).  Modelled from the spec: "returns the entry at position `id` if
`id` is within the valid populated range, otherwise returns the
illegal-instruction sentinel.  Lookup is O(1) (direct indexing)." -/
def getEntry (t : InstTable) (id : InstId) : InstEntry :=
  if h : (id : Nat) < t.instVec_.length then t.instVec_.get ⟨id, h⟩
  else t.sentinel

/-- `InstTable::getEntry(const std::string&)` (declared at
`InstEntry.hpp:314`; body not under src/).  Modelled from the spec: "returns
the entry whose identifier is found via the name index, otherwise the
illegal-instruction sentinel." -/
def getEntryByName (t : InstTable) (name : String) : InstEntry :=
  match t.instMap_.lookup name with
  | some id => t.getEntry id
  | Option.none => t.sentinel

/-- `InstTable::hasInfo(InstId)` (declared at `InstEntry.hpp:317`; body not
under src/).  Modelled from the spec: "true if given id is present in the
table", i.e. the id is within the populated range. -/
def hasInfo (t : InstTable) (id : InstId) : Bool :=
  (id : Nat) < t.instVec_.length

/-- `InstTable::hasInfo(const std::string&)` (declared at
`InstEntry.hpp:320`; body not under src/).  Modelled from the spec: "true if
given instance name is present in the table", i.e. the name index has a
binding for the name. -/
def hasInfoByName (t : InstTable) (name : String) : Bool :=
  (t.instMap_.lookup name).isSome

end InstTable

/-- One line of the fixed internal catalog: the arguments handed to the
`InstEntry` constructor for one instruction variant, plus the derived sizes
and flags the friend `InstTable` sets through the protected setters during
population (spec §4.1: "a constructing party may additionally set the
derived flags and sizes after the base fields are fixed"). -/
structure CatalogItem where
  name : String
  id : InstId
  code : Nat
  mask : Nat
  type : InstType
  op0Type : OperandType
  op0Mode : OperandMode
  op0Mask : Nat
  op1Type : OperandType
  op1Mode : OperandMode
  op1Mask : Nat
  op2Type : OperandType
  op2Mode : OperandMode
  op2Mask : Nat
  op3Type : OperandType
  op3Mode : OperandMode
  op3Mask : Nat
  ldSize : Nat
  stSize : Nat
  isUns : Bool
  isCond : Bool
  isRegBranch : Bool
deriving DecidableEq, Repr

/-- Build the finished `InstEntry` for one catalog line: run the constructor,
then apply the protected setters for the derived sizes and flags. -/
def mkCatalogEntry (c : CatalogItem) : InstEntry :=
  ((((InstEntry.make c.name c.id c.code c.mask c.type
      c.op0Type c.op0Mode c.op0Mask
      c.op1Type c.op1Mode c.op1Mask
      c.op2Type c.op2Mode c.op2Mask
      c.op3Type c.op3Mode c.op3Mask).setIsUnsigned c.isUns).setLoadSize
      c.ldSize).setStoreSize c.stSize).setConditionalBranch c.isCond
    |>.setBranchToRegister c.isRegBranch

/-- `InstTable::setupInstVec` together with the `InstTable` constructor
(declared at `InstEntry.hpp:306` and `InstEntry.hpp:325`; bodies not under
src/).  Modelled from the spec: construction "populates the dense collection
by iterating the fixed internal catalog definition (one call per instruction
variant, each producing one `InstEntry`), appending to the
identifier-indexed collection in catalog order, and inserting `(name, id)`
into the name index."  The fixed catalog is the function's argument. -/
def setupInstVec (catalog : List CatalogItem) : InstTable where
  instVec_ := catalog.map mkCatalogEntry
  instMap_ := catalog.map (fun c => (c.name, c.id))

/-! ### A concrete catalog fragment

Three lines of the fixed catalog, used to exercise the theorems on concrete
input: the illegal entry registered first (spec §4.2) and the two worked
examples of spec §8 (`lw` and `add`), with the standard RV32I encodings
(rd in bits 7-11, rs1 in bits 15-19, rs2 in bits 20-24, I-type immediate in
bits 20-31). -/

/-- Catalog line 0: the illegal-instruction sentinel (all constructor
defaults, sizes and flags zero). -/
def illegalItem : CatalogItem where
  name := ""
  id := (0 : Nat)
  code := 0
  mask := 0xFFFFFFFF
  type := InstType.Int
  op0Type := OperandType.None
  op0Mode := OperandMode.None
  op0Mask := 0
  op1Type := OperandType.None
  op1Mode := OperandMode.None
  op1Mask := 0
  op2Type := OperandType.None
  op2Mode := OperandMode.None
  op2Mask := 0
  op3Type := OperandType.None
  op3Mode := OperandMode.None
  op3Mask := 0
  ldSize := 0
  stSize := 0
  isUns := false
  isCond := false
  isRegBranch := false

/-- Catalog line 1: `lw rd, offset(rs1)` — category Load, load size 4,
slot 0 `{IntReg, Write}`, slot 1 `{IntReg, Read}`, slot 2 `{Imm, Read}`
(spec §8 example). -/
def lwItem : CatalogItem where
  name := "lw"
  id := (1 : Nat)
  code := 0x2003
  mask := 0x707F
  type := InstType.Load
  op0Type := OperandType.IntReg
  op0Mode := OperandMode.Write
  op0Mask := 0xF80
  op1Type := OperandType.IntReg
  op1Mode := OperandMode.Read
  op1Mask := 0xF8000
  op2Type := OperandType.Imm
  op2Mode := OperandMode.Read
  op2Mask := 0xFFF00000
  op3Type := OperandType.None
  op3Mode := OperandMode.None
  op3Mask := 0
  ldSize := 4
  stSize := 0
  isUns := false
  isCond := false
  isRegBranch := false

/-- Catalog line 2: `add rd, rs1, rs2` — category Integer, no load/store
size, slot 0 `{IntReg, Write}`, slots 1-2 `{IntReg, Read}` (spec §8
example). -/
def addItem : CatalogItem where
  name := "add"
  id := (2 : Nat)
  code := 0x33
  mask := 0xFE00707F
  type := InstType.Int
  op0Type := OperandType.IntReg
  op0Mode := OperandMode.Write
  op0Mask := 0xF80
  op1Type := OperandType.IntReg
  op1Mode := OperandMode.Read
  op1Mask := 0xF8000
  op2Type := OperandType.IntReg
  op2Mode := OperandMode.Read
  op2Mask := 0x1F00000
  op3Type := OperandType.None
  op3Mode := OperandMode.None
  op3Mask := 0
  ldSize := 0
  stSize := 0
  isUns := false
  isCond := false
  isRegBranch := false

/-- The concrete three-line catalog fragment. -/
def demoCatalog : List CatalogItem := [illegalItem, lwItem, addItem]

/-- The table built from the concrete catalog fragment. -/
def demoTable : InstTable := setupInstVec demoCatalog

/-! ### Catalog invariants stated by the spec (§3)

The catalog itself lives in the missing body of `setupInstVec`, so these
are hypotheses about catalog lines, taken verbatim from the spec's
invariant list. -/

/-- Spec §3: populated operand slots are contiguous from index 0 (no
gaps) — once a slot's type is `None`, every later slot's type is `None`. -/
abbrev InstEntry.slotsContiguous (e : InstEntry) : Prop :=
  (e.op0Type_ = OperandType.None → e.op1Type_ = OperandType.None) ∧
  (e.op1Type_ = OperandType.None → e.op2Type_ = OperandType.None) ∧
  (e.op2Type_ = OperandType.None → e.op3Type_ = OperandType.None)

/-- Spec §3: "no slot beyond `operandCount` is populated" — a slot whose
type is `None` carries mode `None` and a zero specifier mask. -/
abbrev InstEntry.noneSlotsCleared (e : InstEntry) : Prop :=
  (e.op0Type_ = OperandType.None →
    e.op0Mode_ = OperandMode.None ∧ e.op0Mask_ = 0) ∧
  (e.op1Type_ = OperandType.None →
    e.op1Mode_ = OperandMode.None ∧ e.op1Mask_ = 0) ∧
  (e.op2Type_ = OperandType.None →
    e.op2Mode_ = OperandMode.None ∧ e.op2Mask_ = 0) ∧
  (e.op3Type_ = OperandType.None →
    e.op3Mode_ = OperandMode.None ∧ e.op3Mask_ = 0)

/-- The number of slots of an entry whose type is not `None`. -/
def InstEntry.nonNoneSlotCount (e : InstEntry) : Nat :=
  countNonNoneTypes e.op0Type_ e.op1Type_ e.op2Type_ e.op3Type_

/-- Spec §3, per catalog line: the fixed bit pattern sets no bits outside
the code mask, and the code mask and the four operand specifier masks are
pairwise disjoint. -/
abbrev CatalogItem.masksDisjoint (c : CatalogItem) : Prop :=
  c.code &&& c.mask = c.code ∧
  c.op0Mask &&& c.op1Mask = 0 ∧ c.op0Mask &&& c.op2Mask = 0 ∧
  c.op0Mask &&& c.op3Mask = 0 ∧ c.op1Mask &&& c.op2Mask = 0 ∧
  c.op1Mask &&& c.op3Mask = 0 ∧ c.op2Mask &&& c.op3Mask = 0 ∧
  c.op0Mask &&& c.mask = 0 ∧ c.op1Mask &&& c.mask = 0 ∧
  c.op2Mask &&& c.mask = 0 ∧ c.op3Mask &&& c.mask = 0

/-- Spec §3, per catalog line: `loadSize > 0` iff the category is `Load`,
and `storeSize > 0` iff the category is `Store`. -/
abbrev CatalogItem.sizesMatchType (c : CatalogItem) : Prop :=
  (0 < c.ldSize ↔ c.type = InstType.Load) ∧
  (0 < c.stSize ↔ c.type = InstType.Store)

/-! ### Projections of a built catalog entry -/

@[simp] theorem mkCatalogEntry_name (c : CatalogItem) :
    (mkCatalogEntry c).name = c.name := rfl

@[simp] theorem mkCatalogEntry_instId (c : CatalogItem) :
    (mkCatalogEntry c).instId = c.id := rfl

@[simp] theorem mkCatalogEntry_code (c : CatalogItem) :
    (mkCatalogEntry c).code = c.code := rfl

@[simp] theorem mkCatalogEntry_codeMask (c : CatalogItem) :
    (mkCatalogEntry c).codeMask = c.mask := rfl

@[simp] theorem mkCatalogEntry_type (c : CatalogItem) :
    (mkCatalogEntry c).type = c.type := rfl

@[simp] theorem mkCatalogEntry_ldSize (c : CatalogItem) :
    (mkCatalogEntry c).loadSize = c.ldSize := rfl

@[simp] theorem mkCatalogEntry_stSize (c : CatalogItem) :
    (mkCatalogEntry c).storeSize = c.stSize := rfl

@[simp] theorem mkCatalogEntry_opCount (c : CatalogItem) :
    (mkCatalogEntry c).operandCount =
      countNonNoneTypes c.op0Type c.op1Type c.op2Type c.op3Type := rfl

theorem mkCatalogEntry_type_fields (c : CatalogItem) :
    (mkCatalogEntry c).op0Type_ = c.op0Type ∧
    (mkCatalogEntry c).op1Type_ = c.op1Type ∧
    (mkCatalogEntry c).op2Type_ = c.op2Type ∧
    (mkCatalogEntry c).op3Type_ = c.op3Type :=
  ⟨rfl, rfl, rfl, rfl⟩

theorem mkCatalogEntry_ithOperandMask (c : CatalogItem) (i : Nat) :
    (mkCatalogEntry c).ithOperandMask i =
      if i = 0 then c.op0Mask
      else if i = 1 then c.op1Mask
      else if i = 2 then c.op2Mask
      else if i = 3 then c.op3Mask
      else 0 := rfl

theorem mkCatalogEntry_mask_fields (c : CatalogItem) :
    (mkCatalogEntry c).op0Mask_ = c.op0Mask ∧
    (mkCatalogEntry c).op1Mask_ = c.op1Mask ∧
    (mkCatalogEntry c).op2Mask_ = c.op2Mask ∧
    (mkCatalogEntry c).op3Mask_ = c.op3Mask :=
  ⟨rfl, rfl, rfl, rfl⟩

/-! ### Claim theorems -/

/-- C5: for every entry and every index `i`, `isIthOperandRead i` holds
exactly when the slot's mode is `Read` or `ReadWrite`, and
`isIthOperandWrite i` holds exactly when the slot's mode is `Write` or
`ReadWrite`. -/
theorem read_write_iff_mode (e : InstEntry) (i : Nat) :
    (e.isIthOperandRead i = true ↔
      (e.ithOperandMode i = OperandMode.Read ∨
        e.ithOperandMode i = OperandMode.ReadWrite)) ∧
    (e.isIthOperandWrite i = true ↔
      (e.ithOperandMode i = OperandMode.Write ∨
        e.ithOperandMode i = OperandMode.ReadWrite)) := by
  simp [InstEntry.isIthOperandRead, InstEntry.isIthOperandWrite]

/-- C6: for every entry and every index `i`, `isIthOperandIntRegSource i`
holds exactly when the slot's type is `IntReg` and its mode is exactly
`Read`, and `isIthOperandFpRegSource i` exactly when the type is `FpReg`
and the mode is exactly `Read`. -/
theorem reg_source_iff_read (e : InstEntry) (i : Nat) :
    (e.isIthOperandIntRegSource i = true ↔
      (e.ithOperandType i = OperandType.IntReg ∧
        e.ithOperandMode i = OperandMode.Read)) ∧
    (e.isIthOperandFpRegSource i = true ↔
      (e.ithOperandType i = OperandType.FpReg ∧
        e.ithOperandMode i = OperandMode.Read)) := by
  constructor
  · by_cases h : e.ithOperandType i = OperandType.IntReg <;>
      simp [InstEntry.isIthOperandIntRegSource, h]
  · by_cases h : e.ithOperandType i = OperandType.FpReg <;>
      simp [InstEntry.isIthOperandFpRegSource, h]

/-- C10: for every entry and every index `i ≥ 4`, the operand accessors are
total with no error branch: `ithOperandType` returns `None`,
`ithOperandMode` returns `None` and `ithOperandMask` returns `0`. -/
theorem operand_accessors_total (e : InstEntry) (i : Nat) (h : 4 ≤ i) :
    e.ithOperandType i = OperandType.None ∧
    e.ithOperandMode i = OperandMode.None ∧
    e.ithOperandMask i = 0 := by
  have h0 : ¬ i = 0 := by omega
  have h1 : ¬ i = 1 := by omega
  have h2 : ¬ i = 2 := by omega
  have h3 : ¬ i = 3 := by omega
  simp [InstEntry.ithOperandType, InstEntry.ithOperandMode,
    InstEntry.ithOperandMask, h0, h1, h2, h3]

/-- Witness for C10 at the sentinel entry and index 7. -/
theorem operand_accessors_total_w :
    illegalEntry.ithOperandType 7 = OperandType.None ∧
    illegalEntry.ithOperandMode 7 = OperandMode.None ∧
    illegalEntry.ithOperandMask 7 = 0 :=
  operand_accessors_total illegalEntry 7 (by decide)

/-- C1: `getEntry(id)` returns the entry stored at position `id` when `id`
is within the populated range and the illegal-instruction sentinel
otherwise; `getEntry(name)` returns the entry of the identifier the name
index maps `name` to when `name` is registered and the sentinel otherwise.
Both are total Lean functions, so neither query throws or fails. -/
theorem getEntry_spec (t : InstTable) (id : InstId) (s : String) :
    (∀ h : (id : Nat) < t.instVec_.length,
      t.getEntry id = t.instVec_.get ⟨id, h⟩) ∧
    (¬ (id : Nat) < t.instVec_.length → t.getEntry id = t.sentinel) ∧
    (∀ j, t.instMap_.lookup s = some j →
      t.getEntryByName s = t.getEntry j) ∧
    (t.instMap_.lookup s = Option.none → t.getEntryByName s = t.sentinel) := by
  refine ⟨?_, ?_, ?_, ?_⟩
  · intro h; simp [InstTable.getEntry, h]
  · intro h; simp [InstTable.getEntry, h]
  · intro j hj; simp [InstTable.getEntryByName, hj]
  · intro h; simp [InstTable.getEntryByName, h]

/-- Witness for C1 on the concrete table: in-range id 1, registered name
`lw`, out-of-range id 9, unregistered name. -/
theorem getEntry_spec_w :
    demoTable.getEntry 1 = demoTable.instVec_.get ⟨1, by decide⟩ ∧
    demoTable.getEntry 9 = demoTable.sentinel ∧
    demoTable.getEntryByName "lw" = demoTable.getEntry 1 ∧
    demoTable.getEntryByName "not_a_real_mnemonic" = demoTable.sentinel :=
  ⟨(getEntry_spec demoTable 1 "lw").1 (by decide),
   (getEntry_spec demoTable 9 "lw").2.1 (by decide),
   (getEntry_spec demoTable 1 "lw").2.2.1 1 (by decide),
   (getEntry_spec demoTable 1 "not_a_real_mnemonic").2.2.2 (by decide)⟩

/-- C2: `hasInfo(id)` holds exactly when `id` is within the populated range
(equivalently, when `getEntry(id)` does not fall back to the sentinel), and
`hasInfo(name)` holds exactly when the name index has a binding for `name`;
when either predicate is false the corresponding lookup returns the
illegal-instruction sentinel. -/
theorem hasInfo_spec (t : InstTable) (id : InstId) (s : String) :
    (t.hasInfo id = true ↔ (id : Nat) < t.instVec_.length) ∧
    (t.hasInfo id = false → t.getEntry id = t.sentinel) ∧
    (t.hasInfoByName s = true ↔ (t.instMap_.lookup s).isSome = true) ∧
    (t.hasInfoByName s = false → t.getEntryByName s = t.sentinel) := by
  refine ⟨by simp [InstTable.hasInfo], ?_, Iff.rfl, ?_⟩
  · intro h
    have hlt : ¬ (id : Nat) < t.instVec_.length := by
      simpa [InstTable.hasInfo] using h
    simp [InstTable.getEntry, hlt]
  · intro h
    cases hL : t.instMap_.lookup s with
    | none => simp [InstTable.getEntryByName, hL]
    | some j =>
      rw [InstTable.hasInfoByName, hL] at h
      cases h

/-- Witness for C2 on the concrete table: id 9 is out of range and name
`mul` is unregistered, and both lookups fall back to the sentinel. -/
theorem hasInfo_spec_w :
    demoTable.hasInfo 9 = false ∧
    demoTable.getEntry 9 = demoTable.sentinel ∧
    demoTable.hasInfoByName "mul" = false ∧
    demoTable.getEntryByName "mul" = demoTable.sentinel :=
  ⟨by decide,
   (hasInfo_spec demoTable 9 "mul").2.1 (by decide),
   by decide,
   (hasInfo_spec demoTable 9 "mul").2.2.2 (by decide)⟩

/-- C9: table construction is deterministic — two runs of the constructor
over the same fixed catalog produce tables with identical entry contents
for every identifier and identical name-index bindings, hence identical
query results. -/
theorem construction_deterministic (c1 c2 : List CatalogItem) (h : c1 = c2) :
    setupInstVec c1 = setupInstVec c2 ∧
    (∀ id : InstId, (setupInstVec c1).getEntry id =
      (setupInstVec c2).getEntry id) ∧
    (∀ s : String, (setupInstVec c1).getEntryByName s =
      (setupInstVec c2).getEntryByName s) := by
  subst h
  exact ⟨rfl, fun _ => rfl, fun _ => rfl⟩

/-- Witness for C9: two constructions from the concrete catalog agree. -/
theorem construction_deterministic_w :
    setupInstVec demoCatalog = setupInstVec demoCatalog ∧
    (setupInstVec demoCatalog).getEntry 1 =
      (setupInstVec demoCatalog).getEntry 1 :=
  ⟨(construction_deterministic demoCatalog demoCatalog rfl).1,
   (construction_deterministic demoCatalog demoCatalog rfl).2.1 1⟩

/-- C4: for every entry whose operand count comes from the constructor
(the count of slots with non-`None` type) and which satisfies the spec's
catalog invariants (contiguous slots, unpopulated slots cleared), the
operand count equals the number of non-`None` slots, and every slot index
`i` in `0..3` with `operandCount ≤ i` reports type `None`, mode `None` and
mask `0` — out-of-range slot access is a defined no-op. -/
theorem operandCount_spec (e : InstEntry)
    (hc : e.opCount_ = e.nonNoneSlotCount)
    (hg : e.slotsContiguous)
    (hz : e.noneSlotsCleared) :
    e.operandCount = e.nonNoneSlotCount ∧
    (∀ i, i < 4 → e.operandCount ≤ i →
      e.ithOperandType i = OperandType.None ∧
      e.ithOperandMode i = OperandMode.None ∧
      e.ithOperandMask i = 0) := by
  refine ⟨hc, ?_⟩
  intro i hi4 hcnt
  rw [InstEntry.operandCount, hc] at hcnt
  obtain ⟨hg1, hg2, hg3⟩ := hg
  obtain ⟨hz0, hz1, hz2, hz3⟩ := hz
  interval_cases i <;>
    by_cases h0 : e.op0Type_ = OperandType.None <;>
    by_cases h1 : e.op1Type_ = OperandType.None <;>
    by_cases h2 : e.op2Type_ = OperandType.None <;>
    by_cases h3 : e.op3Type_ = OperandType.None <;>
    simp_all [InstEntry.nonNoneSlotCount, countNonNoneTypes,
      InstEntry.ithOperandType, InstEntry.ithOperandMode,
      InstEntry.ithOperandMask]

/-- Witness for C4 at the `lw` entry (three populated slots): the count is
3 and slot 3 reads back as unpopulated. -/
theorem operandCount_spec_w :
    (mkCatalogEntry lwItem).operandCount =
      (mkCatalogEntry lwItem).nonNoneSlotCount ∧
    ((mkCatalogEntry lwItem).ithOperandType 3 = OperandType.None ∧
      (mkCatalogEntry lwItem).ithOperandMode 3 = OperandMode.None ∧
      (mkCatalogEntry lwItem).ithOperandMask 3 = 0) :=
  ⟨(operandCount_spec (mkCatalogEntry lwItem) rfl (by decide) (by decide)).1,
   (operandCount_spec (mkCatalogEntry lwItem) rfl (by decide)
      (by decide)).2 3 (by decide) (by decide)⟩

/-- C7: every entry built from a catalog whose lines satisfy the spec's
mask invariants has `code &&& codeMask = code`, pairwise-disjoint masks on
distinct populated operand slots, and operand masks disjoint from the code
mask. -/
theorem mask_disjointness (catalog : List CatalogItem)
    (hwf : ∀ c ∈ catalog, c.masksDisjoint)
    (e : InstEntry) (he : e ∈ (setupInstVec catalog).instVec_) :
    e.code &&& e.codeMask = e.code ∧
    (∀ i j, i < e.operandCount → j < e.operandCount → i ≠ j →
      e.ithOperandMask i &&& e.ithOperandMask j = 0) ∧
    (∀ i, i < e.operandCount → e.ithOperandMask i &&& e.codeMask = 0) := by
  simp only [setupInstVec, List.mem_map] at he
  obtain ⟨c, hc, rfl⟩ := he
  obtain ⟨hcode, h01, h02, h03, h12, h13, h23, hm0, hm1, hm2, hm3⟩ :=
    hwf c hc
  have hcnt : (mkCatalogEntry c).operandCount ≤ 4 := by
    rw [mkCatalogEntry_opCount]
    unfold countNonNoneTypes
    split_ifs <;> omega
  refine ⟨hcode, ?_, ?_⟩
  · intro i j hi hj hij
    have hi4 : i < 4 := lt_of_lt_of_le hi hcnt
    have hj4 : j < 4 := lt_of_lt_of_le hj hcnt
    interval_cases i <;> interval_cases j <;>
      simp only [mkCatalogEntry_ithOperandMask] <;>
      norm_num <;>
      first
        | exact absurd rfl hij
        | assumption
        | (rw [Nat.land_comm]; assumption)
  · intro i hi
    have hi4 : i < 4 := lt_of_lt_of_le hi hcnt
    interval_cases i <;>
      simp only [mkCatalogEntry_ithOperandMask, mkCatalogEntry_codeMask] <;>
      norm_num <;> assumption

/-- Witness for C7 at the `add` entry of the concrete catalog. -/
theorem mask_disjointness_w :
    (mkCatalogEntry addItem).code &&& (mkCatalogEntry addItem).codeMask =
      (mkCatalogEntry addItem).code ∧
    (mkCatalogEntry addItem).ithOperandMask 0 &&&
      (mkCatalogEntry addItem).ithOperandMask 1 = 0 ∧
    (mkCatalogEntry addItem).ithOperandMask 1 &&&
      (mkCatalogEntry addItem).codeMask = 0 :=
  ⟨(mask_disjointness demoCatalog (by decide) (mkCatalogEntry addItem)
      (by decide)).1,
   (mask_disjointness demoCatalog (by decide) (mkCatalogEntry addItem)
      (by decide)).2.1 0 1 (by decide) (by decide) (by decide),
   (mask_disjointness demoCatalog (by decide) (mkCatalogEntry addItem)
      (by decide)).2.2 1 (by decide)⟩

/-- C8: every entry built from a catalog whose lines satisfy the spec's
size invariant has `loadSize > 0` iff it is a load, `storeSize > 0` iff it
is a store, and is never both a load and a store. -/
theorem load_store_spec (catalog : List CatalogItem)
    (hwf : ∀ c ∈ catalog, c.sizesMatchType)
    (e : InstEntry) (he : e ∈ (setupInstVec catalog).instVec_) :
    (0 < e.loadSize ↔ e.isLoad = true) ∧
    (0 < e.storeSize ↔ e.isStore = true) ∧
    ¬(e.isLoad = true ∧ e.isStore = true) := by
  simp only [setupInstVec, List.mem_map] at he
  obtain ⟨c, hc, rfl⟩ := he
  obtain ⟨hld, hst⟩ := hwf c hc
  refine ⟨?_, ?_, ?_⟩
  · simp only [InstEntry.isLoad, decide_eq_true_eq]
    exact hld
  · simp only [InstEntry.isStore, decide_eq_true_eq]
    exact hst
  · rintro ⟨hL, hS⟩
    simp only [InstEntry.isLoad, InstEntry.isStore, decide_eq_true_eq]
      at hL hS
    cases hL.symm.trans hS

/-- Witness for C8 at the `lw` entry of the concrete catalog. -/
theorem load_store_spec_w :
    (0 < (mkCatalogEntry lwItem).loadSize ↔
      (mkCatalogEntry lwItem).isLoad = true) ∧
    ¬((mkCatalogEntry lwItem).isLoad = true ∧
      (mkCatalogEntry lwItem).isStore = true) :=
  ⟨(load_store_spec demoCatalog (by decide) (mkCatalogEntry lwItem)
      (by decide)).1,
   (load_store_spec demoCatalog (by decide) (mkCatalogEntry lwItem)
      (by decide)).2.2⟩

/-- Helper for C3: in the name index built from a catalog with pairwise
distinct names, looking up the name of a registered line yields that
line's identifier. -/
theorem lookup_mapped_names (l : List CatalogItem) (c : CatalogItem)
    (hnd : (l.map CatalogItem.name).Nodup) (hmem : c ∈ l) :
    (l.map (fun x => (x.name, x.id))).lookup c.name = some c.id := by
  induction l with
  | nil => cases hmem
  | cons a l ih =>
    rw [List.map_cons, List.nodup_cons] at hnd
    rcases List.mem_cons.mp hmem with rfl | hm
    · simp [List.lookup]
    · have hne : (c.name == a.name) = false := by
        refine beq_eq_false_iff_ne.mpr ?_
        intro h
        exact hnd.1 (h ▸ List.mem_map.mpr ⟨c, hm, rfl⟩)
      simp only [List.map_cons, List.lookup, hne]
      exact ih hnd.2 hm

/-- Helper: in-range lookup by identifier is direct indexing. -/
theorem getEntry_of_lt (t : InstTable) (id : InstId)
    (h : (id : Nat) < t.instVec_.length) :
    t.getEntry id = t.instVec_.get ⟨id, h⟩ := dif_pos h

/-- Helper for C3: when the catalog lists identifiers densely in catalog
order, the line at position `j` carries identifier `j`. -/
theorem catalog_id_at (l : List CatalogItem)
    (hid : l.map CatalogItem.id = List.range l.length)
    (j : Fin l.length) : (l.get j).id = (j : Nat) := by
  have h := congrArg (fun xs => xs[(j : Nat)]?) hid
  simp only [List.getElem?_map] at h
  rw [List.getElem?_eq_getElem j.isLt, List.getElem?_range j.isLt] at h
  simpa using h

/-- C3: for every line `X` of a catalog whose identifiers are dense in
catalog order and whose names are pairwise distinct, lookup by identifier
round-trips to the same name and lookup by name round-trips to the same
identifier: `getEntry(X.id).name = X.name` and
`getEntry(X.name).instId = X.id`. -/
theorem catalog_roundtrip (catalog : List CatalogItem) (c : CatalogItem)
    (hid : catalog.map CatalogItem.id = List.range catalog.length)
    (hnd : (catalog.map CatalogItem.name).Nodup)
    (hmem : c ∈ catalog) :
    ((setupInstVec catalog).getEntry c.id).name = c.name ∧
    ((setupInstVec catalog).getEntryByName c.name).instId = c.id := by
  obtain ⟨j, hj⟩ := List.mem_iff_get.mp hmem
  have hcid : (c.id : Nat) = (j : Nat) := by
    rw [← hj]; exact catalog_id_at catalog hid j
  have hlt2 : (c.id : Nat) < (catalog.map mkCatalogEntry).length := by
    rw [List.length_map, hcid]; exact j.isLt
  have hvec : (setupInstVec catalog).getEntry c.id = mkCatalogEntry c := by
    rw [getEntry_of_lt (setupInstVec catalog) c.id hlt2]
    show (catalog.map mkCatalogEntry).get ⟨(c.id : Nat), hlt2⟩ =
      mkCatalogEntry c
    rw [List.get_map]
    exact congrArg mkCatalogEntry
      ((congrArg catalog.get (Fin.ext hcid)).trans hj)
  constructor
  · rw [hvec, mkCatalogEntry_name]
  · have hlk : (setupInstVec catalog).instMap_.lookup c.name = some c.id :=
      lookup_mapped_names catalog c hnd hmem
    rw [InstTable.getEntryByName, hlk]
    show ((setupInstVec catalog).getEntry c.id).instId = c.id
    rw [hvec, mkCatalogEntry_instId]

/-- Witness for C3 at the `lw` line of the concrete catalog. -/
theorem catalog_roundtrip_w :
    (demoTable.getEntry lwItem.id).name = lwItem.name ∧
    (demoTable.getEntryByName lwItem.name).instId = lwItem.id :=
  catalog_roundtrip demoCatalog lwItem (by decide) (by decide) (by decide)

end WdRiscv
